import Mathlib

/-!
Verification of the RTMP control-plane actor of rtsp-simple-server
(internal/core, file given as src/unnamed/part_000) and of the
cross-protocol forwarding hook (src/internal/core/rtsp_forward.go).

The Go code is shallowly embedded:

- the registry `s.conns : map[*rtmpConn]struct{}` becomes a `List Conn`
  whose elements carry a `tag : Nat` modelling pointer identity (Go map
  keys are pointers; every `newRTMPConn` call yields a fresh pointer);
- the connection worker `rtmpConn` is an external collaborator whose
  constructor and accessors are not part of the two source files; a
  `Conn` therefore carries, as plain data, the ID handed to the
  constructor, the remote address, and the coarse session state that
  `safeState` reports, exactly the three accessors `run` uses
  (`c.ID()`, `c.RemoteAddr().String()`, `c.safeState()`);
- the randomness source `crypto/rand.Read` becomes an explicit stream of
  4-byte draws; an exhausted stream models the error return;
- each `select` case of the actor loop in `rtmpServer.run` becomes one
  function on the registry; Go map iteration order is fixed to list
  order, which is harmless because the actor keeps connection IDs
  pairwise distinct (proved below) so the scans have at most one match.
-/

/-- Four bytes as drawn by one successful crypto/rand.Read of a 4-byte
buffer (part_000 lines 248-252). Each field is reduced mod 256 where it
is consumed, so arbitrary Nat values are harmless. -/
structure ByteQuad where
  b0 : Nat
  b1 : Nat
  b2 : Nat
  b3 : Nat
deriving DecidableEq

/-- Little-endian unsigned 32-bit interpretation of the four bytes, as
computed by binary.LittleEndian.Uint32 (part_000 line 254). -/
def le32 (q : ByteQuad) : Nat :=
  q.b0 % 256 + q.b1 % 256 * 256 + q.b2 % 256 * 65536 + q.b3 % 256 * 16777216

/-- The numeric connection ID derived from one draw: u %= 899999999;
u += 100000000 (part_000 lines 255-256). Both operands stay far below
2 ^ 32, so the Go uint32 arithmetic never wraps and Nat arithmetic is
exact. -/
def connIDNum (q : ByteQuad) : Nat := le32 q % 899999999 + 100000000

/-- Decimal formatting of the numeric ID, as strconv.FormatUint(u, 10)
(part_000 line 258). -/
def connIDStr (q : ByteQuad) : String := toString (connIDNum q)

/-- Coarse session state reported by the worker, an enumeration taken
from gortsplib.ServerSessionState; rtmpServer.run only distinguishes
Read, Publish and everything else (part_000 lines 200-209). -/
inductive SessionState
  | initial
  | preRead
  | read
  | prePublish
  | publish
deriving DecidableEq

/-- One registered connection as the actor sees it. `tag` models the
pointer identity of the Go `*rtmpConn` map key; `connID` is the ID the
worker was constructed with and returns from `ID()`; `remoteAddr` and
`state` are the two other worker accessors used by the List handler. -/
structure Conn where
  tag : Nat
  connID : String
  remoteAddr : String
  state : SessionState
deriving DecidableEq

/-- IDs of the currently registered connections, in registry order. -/
def registeredIDs (conns : List Conn) : List String :=
  conns.map Conn.connID

/-- The allocation loop of rtmpServer.newConnID (part_000 lines
246-272): draw four bytes, fold them into [100000000, 999999999],
format in decimal, and redraw while the candidate collides with a
registered ID. `none` models the error return taken when rand.Read
fails, i.e. when the modelled stream of successful draws is exhausted;
on that path the Go function returns the pair of the empty string and
the error. -/
def newConnID (conns : List Conn) : List ByteQuad → Option String
  | [] => none
  | q :: rest =>
    if connIDStr q ∈ registeredIDs conns then newConnID conns rest
    else some (connIDStr q)

/-- The connNew case of rtmpServer.run (part_000 lines 168-184). The
source discards the allocation error: `id, _ := s.newConnID()`, so when
the randomness source fails the id is the empty string returned
alongside the error, and the worker is still constructed via
newRTMPConn and inserted into the registry map. -/
def acceptCase (conns : List Conn) (tag : Nat) (addr : String) (st : SessionState)
    (stream : List ByteQuad) : List Conn :=
  conns ++ [⟨tag, (newConnID conns stream).getD "", addr, st⟩]

/-- Membership of the candidate ID is decidable, mirroring the
alreadyPresent scan (part_000 lines 260-267). This lemma characterises
a successful allocation: the returned ID is fresh, and it is the
decimal formatting of the first draw whose formatting is fresh, with
every earlier draw colliding. -/
theorem newConnID_eq_some (conns : List Conn) (stream : List ByteQuad) (id : String)
    (h : newConnID conns stream = some id) :
    id ∉ registeredIDs conns ∧
    ∃ pre q post, stream = pre ++ q :: post ∧
      (∀ q2 ∈ pre, connIDStr q2 ∈ registeredIDs conns) ∧
      id = connIDStr q := by
  induction stream with
  | nil => simp [newConnID] at h
  | cons q rest ih =>
    by_cases hq : connIDStr q ∈ registeredIDs conns
    · rw [newConnID, if_pos hq] at h
      obtain ⟨h1, pre, q2, post, hsplit, hpre, hid⟩ := ih h
      exact ⟨h1, q :: pre, q2, post, by simp [hsplit],
        by
          intro q3 hq3
          rcases List.mem_cons.mp hq3 with h3 | h3
          · exact h3 ▸ hq
          · exact hpre q3 h3,
        hid⟩
    · rw [newConnID, if_neg hq] at h
      have hid : id = connIDStr q := (Option.some_inj.mp h).symm
      exact ⟨hid ▸ hq, [], q, rest, by simp, by simp, hid⟩

/-- Numeric range of every allocated ID. -/
theorem connIDNum_range (q : ByteQuad) :
    100000000 ≤ connIDNum q ∧ connIDNum q ≤ 999999999 := by
  unfold connIDNum
  have h : le32 q % 899999999 < 899999999 := Nat.mod_lt _ (by norm_num)
  omega

/-- The connClose case of rtmpServer.run (part_000 lines 186-190): a
close notification carries the worker handle; if the handle is not a
key of the registry map the notification is ignored, otherwise the
entry is deleted. -/
def closeCase (conns : List Conn) (c : Conn) : List Conn :=
  if c ∈ conns then conns.erase c else conns

/-- The linear scan of the apiConnsKick case (part_000 lines 216-225):
find the first registered connection whose ID equals the requested one;
return it together with the registry with that entry deleted. -/
def kickScan (id : String) : List Conn → Option (Conn × List Conn)
  | [] => none
  | c :: rest =>
    if c.connID = id then some (c, rest)
    else
      match kickScan id rest with
      | some (k, rest2) => some (k, c :: rest2)
      | none => none

/-- The apiConnsKick case of rtmpServer.run (part_000 lines 215-230):
on a match, the entry is removed, the worker close operation is invoked
(second component records the connection it is invoked on) and the
response carries no error; otherwise the registry is unchanged and the
response is the error with message "not found". -/
def kickCase (conns : List Conn) (id : String) :
    List Conn × Option Conn × Option String :=
  match kickScan id conns with
  | some (k, rest) => (rest, some k, none)
  | none => (conns, none, some "not found")

/-- The state string computed per connection by the apiConnsList case
(part_000 lines 200-209): "read" for ServerSessionStateRead, "publish"
for ServerSessionStatePublish, "idle" for every other state. -/
def stateString : SessionState → String
  | SessionState.read => "read"
  | SessionState.publish => "publish"
  | _ => "idle"

/-- One item of the List response (rtmpServerAPIConnsListItem,
part_000 lines 18-21). -/
structure ListItem where
  remoteAddr : String
  state : String
deriving DecidableEq

/-- The apiConnsList case of rtmpServer.run (part_000 lines 192-213):
build, keyed by connection ID, one item per registered connection
holding its remote address and state string. The Go map literal is
modelled as an association list in registry order. -/
def listSnapshot (conns : List Conn) : List (String × ListItem) :=
  conns.map (fun c => (c.connID, ⟨c.remoteAddr, stateString c.state⟩))

/-- Association-list indexing, modelling a Go map lookup on the built
Items map. -/
def lookupID (id : String) : List (String × ListItem) → Option ListItem
  | [] => none
  | (k, v) :: rest => if k = id then some v else lookupID id rest

/-- One event consumed by one iteration of the actor loop of
rtmpServer.run (part_000 lines 161-235). An accept event carries the
data of the worker to be constructed (fresh pointer tag, remote
address, state) and the stream of random draws available to newConnID;
a close event carries the worker handle sent on connClose; a kick
event carries the requested ID; a list event carries no payload. The
two remaining select cases, acceptErr and ctx.Done, exit the loop
without touching the registry, so a loop execution is a finite list of
these events. -/
inductive Event
  | accept (tag : Nat) (addr : String) (st : SessionState) (stream : List ByteQuad)
  | closeNote (c : Conn)
  | kick (id : String)
  | list
deriving DecidableEq

/-- Registry evolution of one actor-loop iteration, straight from the
four registry-touching select cases of rtmpServer.run. -/
def applyEvent (conns : List Conn) : Event → List Conn
  | Event.accept tag addr st stream => acceptCase conns tag addr st stream
  | Event.closeNote c => closeCase conns c
  | Event.kick id => (kickCase conns id).1
  | Event.list => conns

/-- Registry after a sequence of actor-loop iterations. -/
def applyEvents (conns : List Conn) (es : List Event) : List Conn :=
  es.foldl applyEvent conns

/-- Actor state instrumented with the history needed to state the
registry-consistency claim: besides the registry itself, the list of
all connections ever inserted by an accept event, and the list of all
connections removed by a close notification or a successful kick. The
instrumentation only appends to the two history lists; the registry
component evolves exactly as applyEvent evolves it (proved below). -/
structure ActorState where
  conns : List Conn
  accepted : List Conn
  removed : List Conn
deriving DecidableEq

/-- Instrumented step of the actor loop. -/
def stepFull (st : ActorState) : Event → ActorState
  | Event.accept tag addr st2 stream =>
    let c : Conn := ⟨tag, (newConnID st.conns stream).getD "", addr, st2⟩
    ⟨st.conns ++ [c], st.accepted ++ [c], st.removed⟩
  | Event.closeNote c =>
    if c ∈ st.conns then ⟨st.conns.erase c, st.accepted, st.removed ++ [c]⟩ else st
  | Event.kick id =>
    match kickScan id st.conns with
    | some (k, rest) => ⟨rest, st.accepted, st.removed ++ [k]⟩
    | none => st
  | Event.list => st

/-- Instrumented run of the actor loop from the empty registry
(part_000 line 104: conns starts as an empty map). -/
def runFull (es : List Event) : ActorState :=
  es.foldl stepFull ⟨[], [], []⟩

/-- Well-formedness of an event trace, checked along the run: every
accept uses a pointer tag never used before (Go guarantees this: each
newRTMPConn call returns a distinct pointer), and its ID allocation
succeeds (the randomness source does not fail). Close and kick events
are unconstrained. -/
def wfFrom (conns : List Conn) (used : List Nat) : List Event → Bool
  | [] => true
  | Event.accept tag addr st stream :: rest =>
    (newConnID conns stream).isSome && !(used.contains tag) &&
      wfFrom (applyEvent conns (Event.accept tag addr st stream)) (tag :: used) rest
  | Event.closeNote c :: rest => wfFrom (applyEvent conns (Event.closeNote c)) used rest
  | Event.kick id :: rest => wfFrom (applyEvent conns (Event.kick id)) used rest
  | Event.list :: rest => wfFrom (applyEvent conns Event.list) used rest

/-- C3: when the randomness source succeeds, newConnID returns the
decimal formatting of the little-endian unsigned 32-bit value of 4
random bytes reduced modulo 899999999 plus 100000000 — a value in
[100000000, 999999999] — taken from the first draw that differs from
every registered ID, earlier draws all colliding; the result is fresh,
so inserting the new connection keeps registered IDs pairwise
distinct. -/
theorem c3_id_allocation (conns : List Conn) (stream : List ByteQuad) (id : String)
    (h : newConnID conns stream = some id) :
    id ∉ registeredIDs conns ∧
    (∃ pre q post, stream = pre ++ q :: post ∧
      (∀ q2 ∈ pre, connIDStr q2 ∈ registeredIDs conns) ∧
      id = toString (le32 q % 899999999 + 100000000) ∧
      100000000 ≤ le32 q % 899999999 + 100000000 ∧
      le32 q % 899999999 + 100000000 ≤ 999999999) ∧
    ((registeredIDs conns).Nodup → ∀ tag addr st,
      (registeredIDs (acceptCase conns tag addr st stream)).Nodup) := by
  obtain ⟨h1, pre, q, post, hsplit, hpre, hid⟩ := newConnID_eq_some conns stream id h
  refine ⟨h1, ⟨pre, q, post, hsplit, hpre, hid, (connIDNum_range q).1,
    (connIDNum_range q).2⟩, ?_⟩
  intro hnd tag addr st
  have hacc : acceptCase conns tag addr st stream = conns ++ [⟨tag, id, addr, st⟩] := by
    simp [acceptCase, h]
  rw [hacc]
  simp only [registeredIDs, List.map_append, List.map_cons, List.map_nil] at *
  rw [List.nodup_append]
  refine ⟨hnd, List.nodup_singleton id, ?_⟩
  intro a ha hb
  rw [List.mem_singleton.mp hb] at ha
  exact h1 ha

/-- Witness for c3_id_allocation at a concrete registry and draw. -/
theorem c3_id_allocation_witness :
    newConnID [] [⟨0, 0, 0, 0⟩] = some "100000000" ∧
    ("100000000" ∉ registeredIDs [] ∧
    (∃ pre q post, [(⟨0, 0, 0, 0⟩ : ByteQuad)] = pre ++ q :: post ∧
      (∀ q2 ∈ pre, connIDStr q2 ∈ registeredIDs []) ∧
      "100000000" = toString (le32 q % 899999999 + 100000000) ∧
      100000000 ≤ le32 q % 899999999 + 100000000 ∧
      le32 q % 899999999 + 100000000 ≤ 999999999) ∧
    ((registeredIDs []).Nodup → ∀ tag addr st,
      (registeredIDs (acceptCase [] tag addr st [⟨0, 0, 0, 0⟩])).Nodup)) :=
  ⟨rfl, c3_id_allocation [] [⟨0, 0, 0, 0⟩] "100000000" rfl⟩

/-- C4 (amended): if the randomness source fails while allocating an ID
for a newly accepted socket, the error is discarded (id, _ :=
s.newConnID()); the connection worker is still constructed, with the
empty-string ID returned alongside the error, and is inserted into the
registry. -/
theorem c4_accept_on_rand_failure (conns : List Conn) (tag : Nat) (addr : String)
    (st : SessionState) (stream : List ByteQuad)
    (h : newConnID conns stream = none) :
    acceptCase conns tag addr st stream = conns ++ [⟨tag, "", addr, st⟩] := by
  simp [acceptCase, h]

/-- Witness for c4_accept_on_rand_failure at a concrete input. -/
theorem c4_accept_on_rand_failure_witness :
    newConnID [] [] = none ∧
    acceptCase [] 0 "93.41.12.8:41231" SessionState.initial [] =
      [] ++ [⟨0, "", "93.41.12.8:41231", SessionState.initial⟩] :=
  ⟨rfl, c4_accept_on_rand_failure [] 0 "93.41.12.8:41231" SessionState.initial [] rfl⟩

/-- C4 counterexample: with the empty draw stream (the randomness
source fails immediately), handling a newly accepted socket is NOT
aborted: the registry, empty before, afterwards contains the newly
constructed worker connection, with the empty string as its ID. -/
theorem c4_rand_failure_still_registers :
    newConnID [] [] = none ∧
    acceptCase [] 0 "93.41.12.8:41231" SessionState.initial [] =
      [⟨0, "", "93.41.12.8:41231", SessionState.initial⟩] ∧
    acceptCase [] 0 "93.41.12.8:41231" SessionState.initial [] ≠ [] :=
  ⟨rfl, rfl, by decide⟩

/-- On a registry with no connection carrying the requested ID, the
kick scan finds nothing. -/
theorem kickScan_eq_none {id : String} : ∀ {conns : List Conn},
    (∀ c ∈ conns, c.connID ≠ id) → kickScan id conns = none := by
  intro conns
  induction conns with
  | nil => intro _; rfl
  | cons a rest ih =>
    intro h
    rw [kickScan, if_neg (h a (List.mem_cons_self a rest)),
      ih (fun c hc => h c (List.mem_cons_of_mem a hc))]

/-- Under pairwise-distinct registered IDs, the kick scan finds a
registered connection with the requested ID and deletes exactly that
entry. -/
theorem kickScan_eq_some {c : Conn} : ∀ {conns : List Conn},
    (conns.map Conn.connID).Nodup → c ∈ conns →
      kickScan c.connID conns = some (c, conns.erase c) := by
  intro conns
  induction conns with
  | nil => intro _ hc; cases hc
  | cons a rest ih =>
    intro hnd hc
    by_cases ha : a.connID = c.connID
    · have hac : a = c :=
        List.inj_on_of_nodup_map hnd (List.mem_cons_self a rest) hc ha
      subst hac
      rw [kickScan, if_pos rfl, List.erase_cons_head]
    · have hcr : c ∈ rest := by
        rcases List.mem_cons.mp hc with h1 | h1
        · exact absurd (h1 ▸ rfl) ha
        · exact h1
      have hnd2 : (rest.map Conn.connID).Nodup := by
        rw [List.map_cons] at hnd
        exact (List.nodup_cons.mp hnd).2
      have hane : ¬(a == c) = true := by
        simp only [beq_iff_eq]
        intro h2
        exact ha (h2 ▸ rfl)
      rw [kickScan, if_neg ha, ih hnd2 hcr, List.erase_cons_tail hane]

/-- C2: for every KickRequest handled by the actor, if some registered
connection has the requested ID, that connection is removed from the
registry, its close operation is invoked, and the response is success
(no error); otherwise the response is the typed error "not found" and
the registry is left unchanged. -/
theorem c2_kick_semantics (conns : List Conn) (id : String)
    (hnd : (conns.map Conn.connID).Nodup) :
    (∀ c ∈ conns, c.connID = id →
      kickCase conns id = (conns.erase c, some c, none)) ∧
    ((∀ c ∈ conns, c.connID ≠ id) →
      kickCase conns id = (conns, none, some "not found")) := by
  constructor
  · intro c hc hcid
    subst hcid
    rw [kickCase, kickScan_eq_some hnd hc]
  · intro h
    rw [kickCase, kickScan_eq_none h]

/-- Witness for c2_kick_semantics: one registered connection, kicked
first by its own ID, then by the unknown ID 999999999. -/
theorem c2_kick_semantics_witness :
    kickCase [⟨0, "100000000", "8.8.8.8:1935", SessionState.read⟩] "100000000" =
      (([⟨0, "100000000", "8.8.8.8:1935", SessionState.read⟩] : List Conn).erase
         ⟨0, "100000000", "8.8.8.8:1935", SessionState.read⟩,
       some ⟨0, "100000000", "8.8.8.8:1935", SessionState.read⟩, none) ∧
    kickCase [⟨0, "100000000", "8.8.8.8:1935", SessionState.read⟩] "999999999" =
      ([⟨0, "100000000", "8.8.8.8:1935", SessionState.read⟩], none, some "not found") :=
  ⟨(c2_kick_semantics [⟨0, "100000000", "8.8.8.8:1935", SessionState.read⟩]
      "100000000" (by decide)).1
      ⟨0, "100000000", "8.8.8.8:1935", SessionState.read⟩ (by decide) rfl,
   (c2_kick_semantics [⟨0, "100000000", "8.8.8.8:1935", SessionState.read⟩]
      "999999999" (by decide)).2 (by decide)⟩

/-- C6: a close notification for a registered handle removes exactly
that entry, and one for an unregistered handle is ignored, leaving the
registry unchanged; consequently a kick and a self-close notification
for the same connection, processed in either order, yield exactly one
removal — the second event is a no-op (the late kick answers
"not found", the late close is ignored). -/
theorem c6_close_kick_race (conns : List Conn) (c : Conn)
    (hnd : (conns.map Conn.connID).Nodup) :
    (c ∉ conns → closeCase conns c = conns) ∧
    (c ∈ conns →
      closeCase conns c = conns.erase c ∧
      kickCase conns c.connID = (conns.erase c, some c, none) ∧
      closeCase (conns.erase c) c = conns.erase c ∧
      kickCase (conns.erase c) c.connID = (conns.erase c, none, some "not found")) := by
  have hndl : conns.Nodup := List.Nodup.of_map Conn.connID hnd
  constructor
  · intro h
    simp [closeCase, h]
  · intro h
    refine ⟨by simp [closeCase, h], ?_, ?_, ?_⟩
    · rw [kickCase, kickScan_eq_some hnd h]
    · simp [closeCase, hndl.not_mem_erase]
    · have hnone : ∀ c2 ∈ conns.erase c, c2.connID ≠ c.connID := by
        intro c2 hc2 heq
        have hc2m : c2 ∈ conns := (List.erase_sublist c conns).subset hc2
        have hc2c : c2 = c := List.inj_on_of_nodup_map hnd hc2m h heq
        rw [hc2c] at hc2
        exact hndl.not_mem_erase hc2
      rw [kickCase, kickScan_eq_none hnone]

/-- Witness for c6_close_kick_race: one registered connection closed
and kicked in both orders. -/
theorem c6_close_kick_race_witness :
    closeCase [⟨7, "123456789", "10.0.0.2:51234", SessionState.publish⟩]
        ⟨7, "123456789", "10.0.0.2:51234", SessionState.publish⟩ =
      ([⟨7, "123456789", "10.0.0.2:51234", SessionState.publish⟩] : List Conn).erase
        ⟨7, "123456789", "10.0.0.2:51234", SessionState.publish⟩ ∧
    kickCase [⟨7, "123456789", "10.0.0.2:51234", SessionState.publish⟩] "123456789" =
      (([⟨7, "123456789", "10.0.0.2:51234", SessionState.publish⟩] : List Conn).erase
         ⟨7, "123456789", "10.0.0.2:51234", SessionState.publish⟩,
       some ⟨7, "123456789", "10.0.0.2:51234", SessionState.publish⟩, none) ∧
    closeCase (([⟨7, "123456789", "10.0.0.2:51234", SessionState.publish⟩] : List Conn).erase
        ⟨7, "123456789", "10.0.0.2:51234", SessionState.publish⟩)
        ⟨7, "123456789", "10.0.0.2:51234", SessionState.publish⟩ =
      ([⟨7, "123456789", "10.0.0.2:51234", SessionState.publish⟩] : List Conn).erase
        ⟨7, "123456789", "10.0.0.2:51234", SessionState.publish⟩ ∧
    kickCase (([⟨7, "123456789", "10.0.0.2:51234", SessionState.publish⟩] : List Conn).erase
        ⟨7, "123456789", "10.0.0.2:51234", SessionState.publish⟩) "123456789" =
      (([⟨7, "123456789", "10.0.0.2:51234", SessionState.publish⟩] : List Conn).erase
         ⟨7, "123456789", "10.0.0.2:51234", SessionState.publish⟩,
       none, some "not found") :=
  (c6_close_kick_race [⟨7, "123456789", "10.0.0.2:51234", SessionState.publish⟩]
    ⟨7, "123456789", "10.0.0.2:51234", SessionState.publish⟩ (by decide)).2 (by decide)

/-- Looking up a registered ID in the built Items map yields the item
of exactly that connection, provided registered IDs are pairwise
distinct. -/
theorem lookupID_listSnapshot (c : Conn) : ∀ conns : List Conn,
    (conns.map Conn.connID).Nodup → c ∈ conns →
      lookupID c.connID (listSnapshot conns) =
        some ⟨c.remoteAddr, stateString c.state⟩ := by
  intro conns
  induction conns with
  | nil => intro _ hc; cases hc
  | cons a rest ih =>
    intro hnd hc
    rw [listSnapshot, List.map_cons, lookupID]
    by_cases hid : a.connID = c.connID
    · have hac : a = c :=
        List.inj_on_of_nodup_map hnd (List.mem_cons_self a rest) hc hid
      subst hac
      rw [if_pos rfl]
    · rw [if_neg hid]
      have hcr : c ∈ rest := by
        rcases List.mem_cons.mp hc with h1 | h1
        · exact absurd (h1 ▸ rfl) hid
        · exact h1
      have hnd2 : (rest.map Conn.connID).Nodup := by
        rw [List.map_cons] at hnd
        exact (List.nodup_cons.mp hnd).2
      exact ih hnd2 hcr

/-- C5: the List response contains exactly one item per registered
connection (same length, keys exactly the registered IDs in order),
keyed by the connection ID and holding the remote address together
with a state string that is "read" when the worker state is reading,
"publish" when it is publishing, and "idle" in every other case;
handling a ListRequest leaves the registry unchanged. -/
theorem c5_list_semantics (conns : List Conn)
    (hnd : (conns.map Conn.connID).Nodup) :
    (listSnapshot conns).length = conns.length ∧
    (listSnapshot conns).map Prod.fst = conns.map Conn.connID ∧
    (∀ c ∈ conns, lookupID c.connID (listSnapshot conns) =
      some ⟨c.remoteAddr, stateString c.state⟩) ∧
    (∀ entry ∈ listSnapshot conns, ∃ c ∈ conns,
      entry = (c.connID, ⟨c.remoteAddr, stateString c.state⟩)) ∧
    stateString SessionState.read = "read" ∧
    stateString SessionState.publish = "publish" ∧
    stateString SessionState.initial = "idle" ∧
    stateString SessionState.preRead = "idle" ∧
    stateString SessionState.prePublish = "idle" ∧
    applyEvent conns Event.list = conns := by
  refine ⟨by simp [listSnapshot], by simp [listSnapshot],
    fun c hc => lookupID_listSnapshot c conns hnd hc, ?_, rfl, rfl, rfl, rfl, rfl, rfl⟩
  intro entry hentry
  rw [listSnapshot, List.mem_map] at hentry
  obtain ⟨c, hc, hce⟩ := hentry
  exact ⟨c, hc, hce.symm⟩

/-- Witness for c5_list_semantics: a registry with one reading and one
idle connection. -/
theorem c5_list_semantics_witness :
    (listSnapshot [⟨0, "100000000", "8.8.8.8:1935", SessionState.read⟩,
       ⟨1, "234567890", "9.9.9.9:2000", SessionState.initial⟩]).length =
      ([⟨0, "100000000", "8.8.8.8:1935", SessionState.read⟩,
       ⟨1, "234567890", "9.9.9.9:2000", SessionState.initial⟩] : List Conn).length ∧
    (listSnapshot [⟨0, "100000000", "8.8.8.8:1935", SessionState.read⟩,
       ⟨1, "234567890", "9.9.9.9:2000", SessionState.initial⟩]).map Prod.fst =
      ([⟨0, "100000000", "8.8.8.8:1935", SessionState.read⟩,
       ⟨1, "234567890", "9.9.9.9:2000", SessionState.initial⟩] : List Conn).map Conn.connID ∧
    (∀ c ∈ ([⟨0, "100000000", "8.8.8.8:1935", SessionState.read⟩,
       ⟨1, "234567890", "9.9.9.9:2000", SessionState.initial⟩] : List Conn),
      lookupID c.connID (listSnapshot [⟨0, "100000000", "8.8.8.8:1935", SessionState.read⟩,
        ⟨1, "234567890", "9.9.9.9:2000", SessionState.initial⟩]) =
        some ⟨c.remoteAddr, stateString c.state⟩) ∧
    (∀ entry ∈ listSnapshot [⟨0, "100000000", "8.8.8.8:1935", SessionState.read⟩,
       ⟨1, "234567890", "9.9.9.9:2000", SessionState.initial⟩],
      ∃ c ∈ ([⟨0, "100000000", "8.8.8.8:1935", SessionState.read⟩,
       ⟨1, "234567890", "9.9.9.9:2000", SessionState.initial⟩] : List Conn),
      entry = (c.connID, ⟨c.remoteAddr, stateString c.state⟩)) ∧
    stateString SessionState.read = "read" ∧
    stateString SessionState.publish = "publish" ∧
    stateString SessionState.initial = "idle" ∧
    stateString SessionState.preRead = "idle" ∧
    stateString SessionState.prePublish = "idle" ∧
    applyEvent [⟨0, "100000000", "8.8.8.8:1935", SessionState.read⟩,
      ⟨1, "234567890", "9.9.9.9:2000", SessionState.initial⟩] Event.list =
      [⟨0, "100000000", "8.8.8.8:1935", SessionState.read⟩,
       ⟨1, "234567890", "9.9.9.9:2000", SessionState.initial⟩] :=
  c5_list_semantics [⟨0, "100000000", "8.8.8.8:1935", SessionState.read⟩,
    ⟨1, "234567890", "9.9.9.9:2000", SessionState.initial⟩] (by decide)

/-- A successful kick scan returns a registered connection carrying the
requested ID, and the registry with exactly that entry deleted. -/
theorem kickScan_some_spec {id : String} : ∀ {conns : List Conn} {k : Conn}
    {rest : List Conn}, kickScan id conns = some (k, rest) →
      k ∈ conns ∧ k.connID = id ∧ rest = conns.erase k := by
  intro conns
  induction conns with
  | nil => intro k rest h; cases h
  | cons a tail ih =>
    intro k rest h
    by_cases ha : a.connID = id
    · rw [kickScan, if_pos ha] at h
      obtain ⟨hk, hrest⟩ : a = k ∧ tail = rest := by
        injection h with h2
        exact ⟨congrArg Prod.fst h2, congrArg Prod.snd h2⟩
      subst hk
      subst hrest
      exact ⟨List.mem_cons_self a tail, ha, (List.erase_cons_head a tail).symm⟩
    · rw [kickScan, if_neg ha] at h
      cases hscan : kickScan id tail with
      | none => rw [hscan] at h; cases h
      | some p =>
        obtain ⟨k2, rest2⟩ := p
        rw [hscan] at h
        obtain ⟨hk, hrest⟩ : k2 = k ∧ a :: rest2 = rest := by
          injection h with h2
          exact ⟨congrArg Prod.fst h2, congrArg Prod.snd h2⟩
        obtain ⟨hmem, hid, hr⟩ := ih hscan
        have hak : ¬(a == k2) = true := by
          simp only [beq_iff_eq]
          intro h3
          exact ha (h3 ▸ hid)
        refine ⟨?_, ?_, ?_⟩
        · rw [← hk]
          exact List.mem_cons_of_mem a hmem
        · rw [← hk]
          exact hid
        · rw [← hrest, ← hk, hr, List.erase_cons_tail hak]

/-- Invariant tying the instrumented actor state to the set of pointer
tags handed out so far: registry entries are pairwise distinct both as
handles and by ID, the registry is exactly the accepted connections not
yet removed, every accepted connection carries an already-used tag, and
removals only concern accepted connections. -/
def RegInv (st : ActorState) (used : List Nat) : Prop :=
  (st.conns.map Conn.tag).Nodup ∧
  (st.conns.map Conn.connID).Nodup ∧
  (∀ c, c ∈ st.conns ↔ c ∈ st.accepted ∧ c ∉ st.removed) ∧
  (∀ c ∈ st.accepted, c.tag ∈ used) ∧
  (∀ c ∈ st.removed, c ∈ st.accepted)

/-- Removing a registered connection (by close notification or by a
successful kick) preserves the invariant, the removal being recorded. -/
theorem regInv_remove {conns acc rem : List Conn} {used : List Nat} {c : Conn}
    (hinv : RegInv ⟨conns, acc, rem⟩ used) (hc : c ∈ conns) :
    RegInv ⟨conns.erase c, acc, rem ++ [c]⟩ used := by
  obtain ⟨h1, h2, h3, h4, h5⟩ := hinv
  have hndl : conns.Nodup := List.Nodup.of_map Conn.tag h1
  have hsub : (conns.erase c).Sublist conns := List.erase_sublist c conns
  refine ⟨List.Nodup.sublist (List.Sublist.map Conn.tag hsub) h1,
    List.Nodup.sublist (List.Sublist.map Conn.connID hsub) h2, ?_, h4, ?_⟩
  · intro c2
    rw [hndl.mem_erase_iff]
    constructor
    · rintro ⟨hne, hmem⟩
      obtain ⟨hacc, hrem⟩ := (h3 c2).mp hmem
      refine ⟨hacc, ?_⟩
      rw [List.mem_append, List.mem_singleton]
      rintro (h6 | h6)
      · exact hrem h6
      · exact hne h6
    · rintro ⟨hacc, hrem⟩
      rw [List.mem_append, List.mem_singleton] at hrem
      push_neg at hrem
      exact ⟨hrem.2, (h3 c2).mpr ⟨hacc, hrem.1⟩⟩
  · intro c2 hc2
    rw [List.mem_append, List.mem_singleton] at hc2
    rcases hc2 with h6 | h6
    · exact h5 c2 h6
    · exact h6 ▸ ((h3 c).mp hc).1

/-- Handling a new socket with a successful ID allocation and a fresh
pointer tag preserves the invariant, the insertion being recorded. -/
theorem regInv_accept {conns acc rem : List Conn} {used : List Nat}
    {tag : Nat} {addr : String} {st2 : SessionState} {stream : List ByteQuad} {id : String}
    (hinv : RegInv ⟨conns, acc, rem⟩ used)
    (hsome : newConnID conns stream = some id) (htag : tag ∉ used) :
    RegInv ⟨conns ++ [⟨tag, id, addr, st2⟩], acc ++ [⟨tag, id, addr, st2⟩], rem⟩
      (tag :: used) := by
  obtain ⟨h1, h2, h3, h4, h5⟩ := hinv
  have hfresh : id ∉ registeredIDs conns := (newConnID_eq_some conns stream id hsome).1
  have htagfresh : tag ∉ conns.map Conn.tag := by
    intro hmem
    rw [List.mem_map] at hmem
    obtain ⟨c, hc, hct⟩ := hmem
    exact htag (hct ▸ h4 c ((h3 c).mp hc).1)
  have hnrem : (⟨tag, id, addr, st2⟩ : Conn) ∉ rem := by
    intro hmem
    exact htag (h4 _ (h5 _ hmem))
  refine ⟨?_, ?_, ?_, ?_, ?_⟩
  · rw [List.map_append, List.nodup_append]
    refine ⟨h1, by simp, ?_⟩
    intro a ha hb
    simp only [List.map_cons, List.map_nil, List.mem_singleton] at hb
    rw [hb] at ha
    exact htagfresh ha
  · rw [List.map_append, List.nodup_append]
    refine ⟨h2, by simp, ?_⟩
    intro a ha hb
    simp only [List.map_cons, List.map_nil, List.mem_singleton] at hb
    rw [hb] at ha
    exact hfresh ha
  · intro c
    simp only [List.mem_append, List.mem_singleton]
    constructor
    · rintro (hc | hc)
      · obtain ⟨hacc, hrem⟩ := (h3 c).mp hc
        exact ⟨Or.inl hacc, hrem⟩
      · exact ⟨Or.inr hc, hc ▸ hnrem⟩
    · rintro ⟨hacc | hacc, hrem⟩
      · exact Or.inl ((h3 c).mpr ⟨hacc, hrem⟩)
      · exact Or.inr hacc
  · intro c hc
    rw [List.mem_append, List.mem_singleton] at hc
    rcases hc with hc | hc
    · exact List.mem_cons_of_mem tag (h4 c hc)
    · rw [hc]
      exact List.mem_cons_self tag used
  · intro c hc
    exact List.mem_append.mpr (Or.inl (h5 c hc))

/-- The registry component of the instrumented step agrees with the
plain source translation of one loop iteration. -/
theorem stepFull_conns (st : ActorState) (e : Event) :
    (stepFull st e).conns = applyEvent st.conns e := by
  cases e with
  | accept tag addr st2 stream => rfl
  | closeNote c =>
    by_cases h : c ∈ st.conns <;> simp [stepFull, applyEvent, closeCase, h]
  | kick id =>
    cases hscan : kickScan id st.conns with
    | none => simp [stepFull, applyEvent, kickCase, hscan]
    | some p =>
      obtain ⟨k, rest⟩ := p
      simp [stepFull, applyEvent, kickCase, hscan]
  | list => rfl

/-- The registry component of the instrumented run agrees with the
plain source translation of the loop. -/
theorem runFull_conns (es : List Event) : ∀ st : ActorState,
    (es.foldl stepFull st).conns = applyEvents st.conns es := by
  induction es with
  | nil => intro st; rfl
  | cons e rest ih =>
    intro st
    rw [List.foldl_cons, ih (stepFull st e), stepFull_conns]
    rfl

/-- Along any well-formed trace the invariant is preserved. -/
theorem regInv_run (es : List Event) : ∀ (st : ActorState) (used : List Nat),
    RegInv st used → wfFrom st.conns used es = true →
      ∃ used2, RegInv (es.foldl stepFull st) used2 := by
  induction es with
  | nil =>
    intro st used hinv _
    exact ⟨used, hinv⟩
  | cons e rest ih =>
    intro st used hinv hwf
    cases e with
    | accept tag addr st2 stream =>
      rw [wfFrom] at hwf
      simp only [Bool.and_eq_true] at hwf
      obtain ⟨⟨hsome, htag⟩, hrest⟩ := hwf
      have htag2 : tag ∉ used := by simp_all
      obtain ⟨id, hid⟩ := Option.isSome_iff_exists.mp hsome
      rw [List.foldl_cons]
      refine ih (stepFull st (Event.accept tag addr st2 stream)) (tag :: used) ?_ ?_
      · have hstep : stepFull st (Event.accept tag addr st2 stream) =
            ⟨st.conns ++ [⟨tag, id, addr, st2⟩], st.accepted ++ [⟨tag, id, addr, st2⟩],
             st.removed⟩ := by
          simp [stepFull, hid]
        rw [hstep]
        exact regInv_accept (by cases st; exact hinv) hid htag2
      · rw [stepFull_conns]
        exact hrest
    | closeNote c =>
      rw [wfFrom] at hwf
      rw [List.foldl_cons]
      refine ih (stepFull st (Event.closeNote c)) used ?_ ?_
      · by_cases h : c ∈ st.conns
        · have hstep : stepFull st (Event.closeNote c) =
              ⟨st.conns.erase c, st.accepted, st.removed ++ [c]⟩ := by
            simp [stepFull, h]
          rw [hstep]
          exact regInv_remove (by cases st; exact hinv) h
        · have hstep : stepFull st (Event.closeNote c) = st := by
            simp [stepFull, h]
          rw [hstep]
          exact hinv
      · rw [stepFull_conns]
        exact hwf
    | kick id =>
      rw [wfFrom] at hwf
      rw [List.foldl_cons]
      refine ih (stepFull st (Event.kick id)) used ?_ ?_
      · cases hscan : kickScan id st.conns with
        | none =>
          have hstep : stepFull st (Event.kick id) = st := by
            simp [stepFull, hscan]
          rw [hstep]
          exact hinv
        | some p =>
          obtain ⟨k, rest2⟩ := p
          obtain ⟨hmem, _, hr⟩ := kickScan_some_spec hscan
          have hstep : stepFull st (Event.kick id) =
              ⟨st.conns.erase k, st.accepted, st.removed ++ [k]⟩ := by
            simp [stepFull, hscan, hr]
          rw [hstep]
          exact regInv_remove (by cases st; exact hinv) hmem
      · rw [stepFull_conns]
        exact hwf
    | list =>
      rw [wfFrom] at hwf
      rw [List.foldl_cons]
      exact ih st used hinv hwf

/-- C1: starting from the empty registry, after any well-formed
sequence of actor steps (new-socket registrations whose ID allocation
succeeds and whose worker pointer is fresh, close notifications, kick
requests, list requests), the registry contains exactly the
connections that were accepted and not yet removed by a close
notification or a successful kick — no duplicate entries, no extras,
and pairwise-distinct connection IDs, hence at most one entry per
ID — and the List snapshot is keyed exactly by the registered IDs.
The instrumented run used to state this agrees, on its registry
component, with the plain translation of the source loop. -/
theorem c1_registry_consistency (es : List Event) (hwf : wfFrom [] [] es = true) :
    (runFull es).conns.Nodup ∧
    ((runFull es).conns.map Conn.tag).Nodup ∧
    ((runFull es).conns.map Conn.connID).Nodup ∧
    (∀ c, c ∈ (runFull es).conns ↔
      c ∈ (runFull es).accepted ∧ c ∉ (runFull es).removed) ∧
    (runFull es).conns = applyEvents [] es ∧
    (listSnapshot (runFull es).conns).map Prod.fst =
      (runFull es).conns.map Conn.connID := by
  have hinv0 : RegInv ⟨[], [], []⟩ [] := by
    refine ⟨List.nodup_nil, List.nodup_nil, ?_, ?_, ?_⟩ <;> simp
  obtain ⟨used2, hinv⟩ := regInv_run es ⟨[], [], []⟩ [] hinv0 hwf
  obtain ⟨h1, h2, h3, _, _⟩ := hinv
  exact ⟨List.Nodup.of_map Conn.tag h1, h1, h2, h3,
    runFull_conns es ⟨[], [], []⟩, by simp [listSnapshot]⟩

/-- Demonstration trace for the c1 witness: two accepts (the second one
redrawing after a collision), a list request, a successful kick of the
first connection and the self-close notification of the second. -/
def demoTrace : List Event :=
  [Event.accept 0 "8.8.8.8:1935" SessionState.initial [⟨0, 0, 0, 0⟩],
   Event.accept 1 "9.9.9.9:2000" SessionState.read [⟨0, 0, 0, 0⟩, ⟨1, 0, 0, 0⟩],
   Event.list,
   Event.kick "100000000",
   Event.closeNote ⟨1, "100000001", "9.9.9.9:2000", SessionState.read⟩]

/-- Witness for c1_registry_consistency on the demonstration trace. -/
theorem c1_registry_consistency_witness :
    wfFrom [] [] demoTrace = true ∧
    ((runFull demoTrace).conns.Nodup ∧
     ((runFull demoTrace).conns.map Conn.tag).Nodup ∧
     ((runFull demoTrace).conns.map Conn.connID).Nodup ∧
     (∀ c, c ∈ (runFull demoTrace).conns ↔
       c ∈ (runFull demoTrace).accepted ∧ c ∉ (runFull demoTrace).removed) ∧
     (runFull demoTrace).conns = applyEvents [] demoTrace ∧
     (listSnapshot (runFull demoTrace).conns).map Prod.fst =
       (runFull demoTrace).conns.map Conn.connID) :=
  ⟨by decide, c1_registry_consistency demoTrace (by decide)⟩

/-- The List API response (rtmpServerAPIConnsListRes, part_000 lines
27-30): optional payload and optional error, the error message being
the only error state used by the facade. -/
structure ConnsListRes where
  data : Option (List (String × ListItem))
  err : Option String
deriving DecidableEq

/-- The Kick API response (rtmpServerAPIConnsKickRes, part_000 lines
36-38). -/
structure ConnsKickRes where
  err : Option String
deriving DecidableEq

/-- The onAPIConnsList facade (part_000 lines 283-292): a select
between sending the request to the actor (and then receiving its
response) and the cancelled context. takenResp = some r describes the
environment in which the actor receives the request and answers r;
takenResp = none the one in which the actor never takes it. ctxDone
says whether the shutdown context has been cancelled. A none result
models the call blocking; the ctx.Done branch returns the error with
message "terminated". -/
def onAPIConnsList (takenResp : Option ConnsListRes) (ctxDone : Bool) :
    Option ConnsListRes :=
  match takenResp with
  | some r => some r
  | none => if ctxDone then some ⟨none, some "terminated"⟩ else none

/-- The onAPIConnsKick facade (part_000 lines 295-304), same select
shape as onAPIConnsList. -/
def onAPIConnsKick (takenResp : Option ConnsKickRes) (ctxDone : Bool) :
    Option ConnsKickRes :=
  match takenResp with
  | some r => some r
  | none => if ctxDone then some ⟨some "terminated"⟩ else none

/-- C7: whenever the shutdown context has been cancelled before the
actor takes the request, each of the two administrative calls returns
the typed "terminated" error; and once the context is cancelled,
neither call can block (after close() returns, the context is
cancelled and the exited actor takes no request, so every pending
administrative call receives "terminated" rather than hanging). -/
theorem c7_terminated_on_shutdown (tL : Option ConnsListRes) (tK : Option ConnsKickRes) :
    onAPIConnsList none true = some ⟨none, some "terminated"⟩ ∧
    onAPIConnsKick none true = some ⟨some "terminated"⟩ ∧
    onAPIConnsList tL true ≠ none ∧
    onAPIConnsKick tK true ≠ none := by
  refine ⟨rfl, rfl, ?_, ?_⟩
  · cases tL <;> simp [onAPIConnsList]
  · cases tK <;> simp [onAPIConnsKick]

/-- The metrics hook argument: some s models passing the live server
instance, none models passing Go nil. -/
structure ServerInstance where
  tag : Nat
deriving DecidableEq

/-- The onRTMPServerSet calls made by newRTMPServer at startup
(part_000 lines 112-114): when a metrics sink is configured, exactly
one call, passing the server instance itself. -/
def startupMetricsCalls (metricsConfigured : Bool) (s : ServerInstance) :
    List (Option ServerInstance) :=
  if metricsConfigured then [some s] else []

/-- The onRTMPServerSet calls made at the exit of rtmpServer.run
(part_000 lines 241-243): when a metrics sink is configured, exactly
one call — and the source passes the server instance s again, not
nil. -/
def shutdownMetricsCalls (metricsConfigured : Bool) (s : ServerInstance) :
    List (Option ServerInstance) :=
  if metricsConfigured then [some s] else []

/-- All onRTMPServerSet calls over one full lifecycle of the server,
startup first, then actor exit. -/
def lifecycleMetricsCalls (metricsConfigured : Bool) (s : ServerInstance) :
    List (Option ServerInstance) :=
  startupMetricsCalls metricsConfigured s ++ shutdownMetricsCalls metricsConfigured s

/-- C9 evaluated on the code: with a metrics sink configured the hook
is indeed invoked exactly once at startup and exactly once when the
actor exits, but the shutdown-time invocation passes the live instance
again (some s); no call of the lifecycle ever passes nil, contradicting
the claim that the shutdown-time call passes nil to mark the instance
gone. -/
theorem c9_shutdown_passes_instance (s : ServerInstance) :
    lifecycleMetricsCalls true s = [some s, some s] ∧
    shutdownMetricsCalls true s = [some s] ∧
    none ∉ lifecycleMetricsCalls true s := by
  refine ⟨rfl, rfl, ?_⟩
  simp [lifecycleMetricsCalls, startupMetricsCalls, shutdownMetricsCalls]

/-- One entry of the process-global forwarders slice (rtsp_forward.go
lines 12-18): the statically registered source stream name, the
outbound publish destination, and the lazily opened client — nil until
the first matching packet. The hook uses the client only as an
opened/not-opened flag plus a write sink, so it is modelled as
Option Unit. -/
structure Forwarder where
  source : String
  destination : String
  client : Option Unit
deriving DecidableEq

/-- regiserForward (rtsp_forward.go lines 28-35; the source spelling of
the name is kept): appends a new entry with a nil client and performs
no duplicate check (the source comment itself notes that a check for
an existing registration is missing). -/
def regiserForward (fs : List Forwarder) (source destination : String) :
    List Forwarder :=
  fs ++ [⟨source, destination, none⟩]

/-- N-fold registration of the same source→destination pair. -/
def regiserForwardN : Nat → List Forwarder → String → String → List Forwarder
  | 0, fs, _, _ => fs
  | n + 1, fs, s, d => regiserForwardN n (regiserForward fs s d) s d

/-- OnRTPForward (rtsp_forward.go lines 37-50): for every registered
forwarder whose source equals the path name of the delivering session,
lazily open the outbound publish connection if the client is still
nil, then relay the packet with its track index and payload. openOK
models the external gortsplib StartPublishing call on the destination
(the session tracks passed along are opaque and carry no information
used here); Except.error models the panic that aborts the whole
process when opening fails. On success the result is the updated
forwarders slice and the list of (destination, trackID, payload)
relays performed, in slice order. -/
def OnRTPForward (openOK : String → Bool) (pathName : String) (trackID : Nat)
    (payload : List Nat) :
    List Forwarder → Except String (List Forwarder × List (String × Nat × List Nat))
  | [] => Except.ok ([], [])
  | f :: rest =>
    if f.source = pathName then
      match f.client with
      | none =>
        if openOK f.destination then
          match OnRTPForward openOK pathName trackID payload rest with
          | Except.ok (rest2, sends) =>
            Except.ok (⟨f.source, f.destination, some ()⟩ :: rest2,
              (f.destination, trackID, payload) :: sends)
          | Except.error e => Except.error e
        else Except.error f.destination
      | some _ =>
        match OnRTPForward openOK pathName trackID payload rest with
        | Except.ok (rest2, sends) =>
          Except.ok (f :: rest2, (f.destination, trackID, payload) :: sends)
        | Except.error e => Except.error e
    else
      match OnRTPForward openOK pathName trackID payload rest with
      | Except.ok (rest2, sends) => Except.ok (f :: rest2, sends)
      | Except.error e => Except.error e

/-- When every matching not-yet-opened forwarder can open its
destination, the hook succeeds: every matching entry ends up opened,
non-matching entries are untouched, and exactly one relay is emitted
per matching entry, in order. -/
theorem onRTPForward_ok {openOK : String → Bool} {pathName : String} {trackID : Nat}
    {payload : List Nat} : ∀ {fs : List Forwarder},
    (∀ f ∈ fs, f.source = pathName → f.client = none → openOK f.destination = true) →
    OnRTPForward openOK pathName trackID payload fs =
      Except.ok
        (fs.map (fun f =>
          if f.source = pathName then ⟨f.source, f.destination, some ()⟩ else f),
         (fs.filter (fun f => f.source == pathName)).map
           (fun f => (f.destination, trackID, payload))) := by
  intro fs
  induction fs with
  | nil => intro _; rfl
  | cons f rest ih =>
    intro h
    have hrest := ih (fun g hg => h g (List.mem_cons_of_mem f hg))
    by_cases hs : f.source = pathName
    · cases hc : f.client with
      | none =>
        have hopen : openOK f.destination = true :=
          h f (List.mem_cons_self f rest) hs hc
        simp [OnRTPForward, hc, hopen, hrest, hs]
      | some u =>
        cases u
        have hf : (⟨pathName, f.destination, some ()⟩ : Forwarder) = f := by
          cases f
          simp_all
        simp [OnRTPForward, hc, hrest, hs, hf]
    · simp [OnRTPForward, hs, hrest]

/-- When some matching forwarder has a nil client and cannot open its
destination, the hook aborts the whole process (the panic path). -/
theorem onRTPForward_error {openOK : String → Bool} {pathName : String} {trackID : Nat}
    {payload : List Nat} : ∀ {fs : List Forwarder},
    (∃ f ∈ fs, f.source = pathName ∧ f.client = none ∧ openOK f.destination = false) →
    ∃ e, OnRTPForward openOK pathName trackID payload fs = Except.error e := by
  intro fs
  induction fs with
  | nil =>
    rintro ⟨f, hf, _⟩
    cases hf
  | cons f rest ih =>
    rintro ⟨g, hg, hgs, hgc, hgo⟩
    rcases List.mem_cons.mp hg with hg1 | hg1
    · subst hg1
      exact ⟨g.destination, by simp [OnRTPForward, hgs, hgc, hgo]⟩
    · obtain ⟨e, he⟩ := ih ⟨g, hg1, hgs, hgc, hgo⟩
      by_cases hs : f.source = pathName
      · cases hc : f.client with
        | none =>
          by_cases ho : openOK f.destination = true
          · exact ⟨e, by simp [OnRTPForward, hs, hc, ho, he]⟩
          · exact ⟨f.destination, by simp [OnRTPForward, hs, hc, ho]⟩
        | some u => exact ⟨e, by simp [OnRTPForward, hs, hc, he]⟩
      · exact ⟨e, by simp [OnRTPForward, hs, he]⟩

/-- C8: for every packet delivered to the forward hook — if every
registered forwarder matching the session path name that has not yet
opened its outbound connection can open it, then the hook succeeds,
opening the connection lazily for exactly the matching entries and
relaying the packet with its track index and payload once per matching
entry; and if some matching not-yet-opened forwarder fails to open its
outbound publish connection, the whole process aborts (an error with
no recovery path). -/
theorem c8_forward_hook (openOK : String → Bool) (pathName : String) (trackID : Nat)
    (payload : List Nat) (fs : List Forwarder) :
    ((∀ f ∈ fs, f.source = pathName → f.client = none → openOK f.destination = true) →
      OnRTPForward openOK pathName trackID payload fs =
        Except.ok
          (fs.map (fun f =>
            if f.source = pathName then ⟨f.source, f.destination, some ()⟩ else f),
           (fs.filter (fun f => f.source == pathName)).map
             (fun f => (f.destination, trackID, payload)))) ∧
    ((∃ f ∈ fs, f.source = pathName ∧ f.client = none ∧ openOK f.destination = false) →
      ∃ e, OnRTPForward openOK pathName trackID payload fs = Except.error e) :=
  ⟨fun h => onRTPForward_ok h, fun h => onRTPForward_error h⟩

/-- Witness for c8_forward_hook: one matching and one non-matching
forwarder with an always-succeeding open, and a matching forwarder
whose open fails. -/
theorem c8_forward_hook_witness :
    OnRTPForward (fun _ => true) "live.stream" 1 [7, 8]
      [⟨"live.stream", "rtsp://localhost:8554/live2.stream", none⟩,
       ⟨"other", "rtsp://example/dest", none⟩] =
      Except.ok
        ([⟨"live.stream", "rtsp://localhost:8554/live2.stream", some ()⟩,
          ⟨"other", "rtsp://example/dest", none⟩],
         [("rtsp://localhost:8554/live2.stream", 1, [7, 8])]) ∧
    (∃ e, OnRTPForward (fun _ => false) "live.stream" 1 [7, 8]
      [⟨"live.stream", "rtsp://localhost:8554/live2.stream", none⟩] =
      Except.error e) := by
  constructor
  · have h := (c8_forward_hook (fun _ => true) "live.stream" 1 [7, 8]
      [⟨"live.stream", "rtsp://localhost:8554/live2.stream", none⟩,
       ⟨"other", "rtsp://example/dest", none⟩]).1
      (by intro f hf h1 h2; rfl)
    rw [h]
    rfl
  · exact (c8_forward_hook (fun _ => false) "live.stream" 1 [7, 8]
      [⟨"live.stream", "rtsp://localhost:8554/live2.stream", none⟩]).2
      ⟨⟨"live.stream", "rtsp://localhost:8554/live2.stream", none⟩,
       List.mem_singleton.mpr rfl, rfl, rfl, rfl⟩

/-- Repeated registration appends one fresh entry per call. -/
theorem regiserForwardN_eq (s d : String) : ∀ (n : Nat) (fs : List Forwarder),
    regiserForwardN n fs s d = fs ++ List.replicate n ⟨s, d, none⟩ := by
  intro n
  induction n with
  | zero =>
    intro fs
    simp [regiserForwardN]
  | succ n ih =>
    intro fs
    rw [regiserForwardN, ih, regiserForward, List.append_assoc,
      List.singleton_append, ← List.replicate_succ]

/-- Filtering replicas by a predicate they satisfy keeps them all. -/
theorem filter_true_replicate {p : Forwarder → Bool} {a : Forwarder} (h : p a = true) :
    ∀ n, List.filter p (List.replicate n a) = List.replicate n a := by
  intro n
  induction n with
  | zero => rfl
  | succ n ih => simp [List.replicate_succ, List.filter_cons, h, ih]

/-- C10: regiserForward performs no duplicate check — registering the
same source→destination pair N times starting from the empty slice
creates N separate forwarder entries, each with its own nil client;
the forward hook then relays a matching packet once per entry and
lazily opens one outbound publish connection per entry. -/
theorem c10_duplicate_registration (n : Nat) (s d : String) (trackID : Nat)
    (payload : List Nat) :
    regiserForwardN n [] s d = List.replicate n ⟨s, d, none⟩ ∧
    (regiserForwardN n [] s d).length = n ∧
    OnRTPForward (fun _ => true) s trackID payload (regiserForwardN n [] s d) =
      Except.ok (List.replicate n ⟨s, d, some ()⟩,
        List.replicate n (d, trackID, payload)) := by
  have h1 : regiserForwardN n [] s d = List.replicate n ⟨s, d, none⟩ := by
    rw [regiserForwardN_eq s d n []]
    rfl
  have hall : ∀ f ∈ List.replicate n (⟨s, d, none⟩ : Forwarder),
      f.source = s → f.client = none → (fun _ : String => true) f.destination = true := by
    intro f _ _ _
    rfl
  refine ⟨h1, by rw [h1, List.length_replicate], ?_⟩
  rw [h1, onRTPForward_ok hall, List.map_replicate, filter_true_replicate (by simp),
    List.map_replicate]
  simp

/-- Witness for c7_terminated_on_shutdown at concrete pending calls. -/
theorem c7_terminated_on_shutdown_witness :
    onAPIConnsList none true = some ⟨none, some "terminated"⟩ ∧
    onAPIConnsKick none true = some ⟨some "terminated"⟩ ∧
    onAPIConnsList (some ⟨some [], none⟩) true ≠ none ∧
    onAPIConnsKick (some ⟨none⟩) true ≠ none :=
  c7_terminated_on_shutdown (some ⟨some [], none⟩) (some ⟨none⟩)

/-- Witness for c9_shutdown_passes_instance at a concrete instance. -/
theorem c9_shutdown_passes_instance_witness :
    lifecycleMetricsCalls true ⟨0⟩ = [some ⟨0⟩, some ⟨0⟩] ∧
    shutdownMetricsCalls true ⟨0⟩ = [some ⟨0⟩] ∧
    none ∉ lifecycleMetricsCalls true ⟨0⟩ :=
  c9_shutdown_passes_instance ⟨0⟩

/-- Witness for c10_duplicate_registration at three registrations of
the pair found commented out in the source init function. -/
theorem c10_duplicate_registration_witness :
    regiserForwardN 3 [] "live.stream" "rtsp://localhost:8554/live2.stream" =
      List.replicate 3 ⟨"live.stream", "rtsp://localhost:8554/live2.stream", none⟩ ∧
    (regiserForwardN 3 [] "live.stream" "rtsp://localhost:8554/live2.stream").length = 3 ∧
    OnRTPForward (fun _ => true) "live.stream" 2 [9]
        (regiserForwardN 3 [] "live.stream" "rtsp://localhost:8554/live2.stream") =
      Except.ok
        (List.replicate 3 ⟨"live.stream", "rtsp://localhost:8554/live2.stream", some ()⟩,
         List.replicate 3 ("rtsp://localhost:8554/live2.stream", 2, [9])) :=
  c10_duplicate_registration 3 "live.stream" "rtsp://localhost:8554/live2.stream" 2 [9]
